import Mathlib

/-!
Shallow embedding of the `az` FastAPI backend (src/src/backend/python/az):
the error-envelope / error-mapping layer, the correlation middleware, the
resource-group and storage-account routers, and the small parts of the
Azure service layer that the routers depend on.

Python strings are embedded as Lean `String`; Python `a or b` on strings
treats `None` and `""` as falsy; dicts appear as association lists.
Wall-clock values (timestamps, process time, freshly drawn UUID4 strings)
are taken as explicit parameters, since they come from the environment.
-/

namespace Az

/-- JSON values, as produced by serializing a pydantic `model_dump`. -/
inductive Json where
  | null : Json
  | str : String → Json
  | num : Nat → Json
  | arr : List Json → Json
  | obj : List (String × Json) → Json

/-- Python `a or b` where `a : Optional[str]`: `None` and `""` are falsy. -/
def pyOrOpt (a : Option String) (b : String) : String :=
  match a with
  | none => b
  | some s => if s = "" then b else s

/-- Python `a or b` where `a : Optional[dict]`: `None` and `{}` are falsy. -/
def pyOrDict (a : Option (List (String × String))) (b : List (String × String)) :
    List (String × String) :=
  match a with
  | none => b
  | some t => if t = [] then b else t

/-- Python `str.lower()` (restricted to the ASCII casing the code relies on). -/
def pyLower (s : String) : String :=
  String.mk (s.data.map Char.toLower)

/-- `pat` occurs as a contiguous subsequence of `s` (helper for Python `in`). -/
def substrAux (pat : List Char) : List Char → Bool
  | [] => pat.isEmpty
  | c :: rest => pat.isPrefixOf (c :: rest) || substrAux pat rest

/-- Python `pat in s` on strings. -/
def strIn (pat s : String) : Bool :=
  substrAux pat.data s.data

/-- Starlette `response.headers[k] = v`: replace the existing entry or append. -/
def setHeader : List (String × String) → String → String → List (String × String)
  | [], k, v => [(k, v)]
  | (k0, v0) :: rest, k, v =>
      if k0 = k then (k, v) :: rest else (k0, v0) :: setHeader rest k v

end Az

namespace Az

/-! ## Data model (api/models/resource_group.py) -/

/-- `ErrorDetail`: one entry per rejected input field. -/
structure ErrorDetail where
  field : Option String
  message : String
  code : Option String
deriving DecidableEq, Repr

/-- `ErrorResponse`: the uniform error envelope. `timestamp` is the wall-clock
instant of construction, passed in by the caller of each handler. -/
structure ErrorResponse where
  error : String
  message : String
  details : Option (List ErrorDetail)
  correlation_id : String
  timestamp : Nat
deriving DecidableEq, Repr

/-- `ResourceGroup`: complete resource-group model. -/
structure ResourceGroup where
  name : String
  location : String
  tags : List (String × String)
  id : String
  type : String
  managed_by : Option String
deriving DecidableEq, Repr

/-- `ResourceGroupCreate`: creation payload. -/
structure ResourceGroupCreate where
  name : String
  location : String
  tags : Option (List (String × String))
deriving DecidableEq, Repr

/-- `ResourceGroupUpdate`: update payload — only `tags`, optional. -/
structure ResourceGroupUpdate where
  tags : Option (List (String × String))
deriving DecidableEq, Repr

/-- `ResourceGroupList`: list envelope for resource groups. -/
structure ResourceGroupList where
  resource_groups : List ResourceGroup
  count : Nat
deriving DecidableEq, Repr

/-- `StorageAccount` (fields not inspected by the claims kept as plain data). -/
structure StorageAccount where
  name : String
  resource_group : String
  location : String
  kind : Option String
  sku_name : Option String
  access_tier : Option String
  allow_blob_public : Option Bool
  allow_shared_key : Option Bool
  tags : List (String × String)
  id : String
  sku_tier : Option String
  creation_time : Option Nat
deriving DecidableEq, Repr

/-- `StorageAccountCreate`: creation payload for a storage account. -/
structure StorageAccountCreate where
  name : String
  resource_group : String
  location : String
  kind : Option String
  sku_name : Option String
  access_tier : Option String
  allow_blob_public : Option Bool
  allow_shared_key : Option Bool
  tags : Option (List (String × String))
deriving DecidableEq, Repr

/-- `StorageAccountList`: list envelope for storage accounts. -/
structure StorageAccountList where
  storage_accounts : List StorageAccount
  count : Nat
deriving DecidableEq, Repr

/-- One entry of FastAPI `RequestValidationError.errors()`:
`loc` (location path), `msg`, `type`. -/
structure ValErr where
  loc : List String
  msg : String
  ty : String
deriving DecidableEq, Repr

end Az

namespace Az

/-! ## Failures

`BackendErr` embeds the exceptions the Azure SDK / service layer can raise
into the routers (azure.core exceptions are not FastAPI `HTTPException`s):
`nf` is `azure.core.exceptions.ResourceNotFoundError`, `http` is
`HttpResponseError`, `other` any other exception; each carries `str(e)`.

`RaisedExc` embeds the exceptions a router raises out to the exception
handlers registered in main.py: `azureApi` is an `AzureAPIException`
subclass (carrying its class name, status code, detail and the optional
`correlation_id` attribute), `httpExc` a plain FastAPI `HTTPException`,
`unhandled` anything that reaches the catch-all `Exception` handler. -/

/-- Exceptions coming out of the SDK / service layer, with `str(e)`. -/
inductive BackendErr where
  | nf : String → BackendErr
  | http : String → BackendErr
  | other : String → BackendErr
deriving DecidableEq, Repr

/-- `str(e)` of a backend exception. -/
def BackendErr.msg : BackendErr → String
  | .nf m => m
  | .http m => m
  | .other m => m

/-- Exceptions a router raises to the registered exception handlers. -/
inductive RaisedExc where
  | azureApi : String → Nat → String → Option String → RaisedExc
  | httpExc : Nat → String → RaisedExc
  | unhandled : String → RaisedExc
deriving DecidableEq, Repr

/-! ## Error handlers (api/middleware/error_handler.py)

Each handler returns the pair (status code, `ErrorResponse`). `ctx` is the
value of the `correlation_id` context variable at handling time (`None`
when no correlation context is active); `ts` the wall-clock timestamp. -/

/-- `azure_exception_handler`: handles `AzureAPIException` (`cn` is the
exception's class name, `stat`/`det`/`excCid` its attributes). -/
def azure_exception_handler (ctx : Option String) (cn : String) (stat : Nat)
    (det : String) (excCid : Option String) (ts : Nat) : Nat × ErrorResponse :=
  (stat,
   { error := cn
     message := det
     details := none
     correlation_id := pyOrOpt excCid (pyOrOpt ctx "unknown")
     timestamp := ts })

/-- `validation_exception_handler`: handles `RequestValidationError`,
converting each validator entry to an `ErrorDetail`. -/
def validation_exception_handler (ctx : Option String) (errors : List ValErr)
    (ts : Nat) : Nat × ErrorResponse :=
  (422,
   { error := "ValidationError"
     message := "Request validation failed"
     details := some (errors.map fun e =>
       { field := some (String.intercalate "." e.loc)
         message := e.msg
         code := some e.ty })
     correlation_id := pyOrOpt ctx "unknown"
     timestamp := ts })

/-- `http_exception_handler`: handles plain Starlette/FastAPI `HTTPException`. -/
def http_exception_handler (ctx : Option String) (stat : Nat) (det : String)
    (ts : Nat) : Nat × ErrorResponse :=
  (stat,
   { error := "HTTPException"
     message := det
     details := none
     correlation_id := pyOrOpt ctx "unknown"
     timestamp := ts })

/-- `general_exception_handler`: catch-all for unhandled `Exception`s; the
envelope message is fixed and does not use the exception's text. -/
def general_exception_handler (ctx : Option String) (_excMsg : String)
    (ts : Nat) : Nat × ErrorResponse :=
  (500,
   { error := "InternalServerError"
     message := "An unexpected error occurred"
     details := none
     correlation_id := pyOrOpt ctx "unknown"
     timestamp := ts })

/-- Dispatch of a raised exception to the handler registered for its class
in main.py (`AzureAPIException` → azure handler, `HTTPException` → http
handler, bare `Exception` → general handler). -/
def handle_exception (ctx : Option String) (ts : Nat) :
    RaisedExc → Nat × ErrorResponse
  | .azureApi cn stat det excCid => azure_exception_handler ctx cn stat det excCid ts
  | .httpExc stat det => http_exception_handler ctx stat det ts
  | .unhandled msg => general_exception_handler ctx msg ts

/-- Serialization of one `ErrorDetail` (pydantic `model_dump`, `None` → null). -/
def errorDetailDump (d : ErrorDetail) : Json :=
  .obj [("field", match d.field with | none => .null | some s => .str s),
        ("message", .str d.message),
        ("code", match d.code with | none => .null | some s => .str s)]

/-- Serialization of an `ErrorResponse` by pydantic `model_dump`: every
declared field is emitted, `None` becoming JSON null. -/
def errorResponseDump (r : ErrorResponse) : List (String × Json) :=
  [("error", .str r.error),
   ("message", .str r.message),
   ("details", match r.details with
               | none => .null
               | some ds => .arr (ds.map errorDetailDump)),
   ("correlation_id", .str r.correlation_id),
   ("timestamp", .num r.timestamp)]

/-! ## Correlation middleware (api/middleware/correlation.py) -/

/-- `generate_correlation_id`: first 8 characters of `str(uuid.uuid4())`;
`u` stands for the freshly drawn UUID4 string. -/
def generate_correlation_id (u : String) : String :=
  u.take 8

/-- Line 19 of correlation.py: the correlation id chosen for a request —
the inbound `X-Correlation-ID` header if present and truthy (non-empty),
otherwise a freshly generated id. -/
def corrOf (headerCid : Option String) (u : String) : String :=
  pyOrOpt headerCid (generate_correlation_id u)

/-- An HTTP response as the middleware sees it. -/
structure Response where
  status : Nat
  headers : List (String × String)
  body : Json

/-- `CorrelationMiddleware.dispatch`: on a normal return from `call_next`
it sets the `X-Correlation-ID` and `X-Process-Time` headers; on an
exception it logs and re-raises without building a response. `pt` is
`str(process_time)`. -/
def dispatch (headerCid : Option String) (u : String) (pt : String)
    (inner : Except String Response) : Except String Response :=
  let corr := corrOf headerCid u
  match inner with
  | .ok r =>
      let hs := setHeader (setHeader r.headers "X-Correlation-ID" corr) "X-Process-Time" pt
      .ok { r with headers := hs }
  | .error e => .error e

/-- Modelled from the spec and the framework wiring in main.py: Starlette
places the handler registered for bare `Exception`
(`general_exception_handler`) in the outermost server-error layer, OUTSIDE
the user middleware stack, while the handlers for `AzureAPIException`,
`HTTPException` and `RequestValidationError` run inside it. `inner` is
therefore the inner application's outcome with those three handler classes
already converted to responses; an `Except.error` is an exception that
escapes `CorrelationMiddleware` and is converted to a bare 500 response by
the catch-all handler, with no headers added by the middleware. -/
def app_send (headerCid : Option String) (u : String) (pt : String)
    (ctx : Option String) (ts : Nat) (inner : Except String Response) : Response :=
  match dispatch headerCid u pt inner with
  | .ok r => r
  | .error m =>
      let p := general_exception_handler ctx m ts
      { status := p.1, headers := [], body := .obj (errorResponseDump p.2) }

end Az

namespace Az

/-! ## Log events -/

/-- Logging levels used by the service. -/
inductive LogLevel where
  | info : LogLevel
  | warning : LogLevel
  | error : LogLevel
deriving DecidableEq, Repr

/-- The log records each error handler emits before building its envelope. -/
def handler_logs : RaisedExc → List (LogLevel × String)
  | .azureApi _ _ det _ => [(.warning, s!"Azure API exception: {det}")]
  | .httpExc _ det => [(.warning, s!"HTTP exception: {det}")]
  | .unhandled m => [(.error, s!"Unexpected error: {m}")]

/-! ## Service layer (api/services/azure_service.py)

The routers receive the service outcome as an `Except BackendErr α`:
the service re-raises `ResourceNotFoundError` and every other exception
unchanged (its `get`-before-`update`/`delete` check propagates the SDK's
not-found error), so the outcome the router sees is the backend's. -/

/-- Log records of `AzureService.list_resource_groups`. -/
def service_list_resource_groups_logs
    (backend : Except BackendErr (List ResourceGroup)) : List (LogLevel × String) :=
  match backend with
  | .ok rgs => [(.info, "Listing resource groups"),
                (.info, s!"Found {rgs.length} resource groups")]
  | .error e => [(.info, "Listing resource groups"),
                 (.error, s!"Failed to list resource groups: {e.msg}")]

/-- A value inside the `parameters` dict sent to the Azure SDK. -/
inductive ParamValue where
  | str : String → ParamValue
  | dict : List (String × String) → ParamValue
deriving DecidableEq, Repr

/-- `AzureService.update_resource_group`, lines 189–191: the `parameters`
dict sent to `resource_groups.update` — only the `tags` key, set to
`update.tags or {}`. -/
def update_resource_group_parameters (update : ResourceGroupUpdate) :
    List (String × ParamValue) :=
  [("tags", .dict (pyOrDict update.tags []))]

/-- Modelled from the spec: the backend collaborator's `update(id, patch)`
applies a PATCH — each field named in the patch replaces that field of the
remote entity wholly; fields absent from the patch are left unchanged.
This models the `resource_groups.update` call that receives the
parameters built above. -/
def applyPatch (old : ResourceGroup) (params : List (String × ParamValue)) :
    ResourceGroup :=
  { old with
    name := match params.lookup "name" with
            | some (.str s) => s
            | _ => old.name
    location := match params.lookup "location" with
                | some (.str s) => s
                | _ => old.location
    tags := match params.lookup "tags" with
            | some (.dict d) => d
            | _ => old.tags }

/-! ## Resource-group router (api/routers/resource_groups.py)

Each route takes the correlation context `ctx` and the service outcome and
returns either the response model or the exception the route raises. -/

/-- Body returned on a successful resource-group deletion. -/
structure DeleteRGMessage where
  message : String
  note : String
deriving DecidableEq, Repr

/-- `list_resource_groups` (lines 26–50). -/
def list_resource_groups (ctx : Option String)
    (svc : Except BackendErr (List ResourceGroup)) :
    Except RaisedExc ResourceGroupList :=
  match svc with
  | .ok resource_groups =>
      .ok { resource_groups := resource_groups, count := resource_groups.length }
  | .error _ =>
      .error (.azureApi "AzureConnectionError" 503
        "Failed to retrieve resource groups from Azure" ctx)

/-- `get_resource_group` (lines 53–82): catches the SDK's
`ResourceNotFoundError` by type, everything else becomes 503. -/
def get_resource_group (ctx : Option String) (name : String)
    (svc : Except BackendErr ResourceGroup) : Except RaisedExc ResourceGroup :=
  match svc with
  | .ok rg => .ok rg
  | .error (.nf _) =>
      .error (.azureApi "ResourceNotFoundError" 404
        s!"Resource Group \x27{name}\x27 not found" ctx)
  | .error _ =>
      .error (.azureApi "AzureConnectionError" 503
        s!"Failed to retrieve resource group \x27{name}\x27 from Azure" ctx)

/-- `create_resource_group` (lines 85–117): sniffs the exception text for
"already exists"/"conflict" (case-insensitively) → plain 409
`HTTPException`; any other failure → 503 `AzureConnectionError`. -/
def create_resource_group (ctx : Option String) (rgc : ResourceGroupCreate)
    (svc : Except BackendErr ResourceGroup) : Except RaisedExc ResourceGroup :=
  match svc with
  | .ok rg => .ok rg
  | .error e =>
      if strIn "already exists" (pyLower e.msg) || strIn "conflict" (pyLower e.msg) then
        .error (.httpExc 409 s!"Resource group \x27{rgc.name}\x27 already exists")
      else
        .error (.azureApi "AzureConnectionError" 503
          s!"Failed to create resource group \x27{rgc.name}\x27" ctx)

/-- `update_resource_group` (lines 120–151). -/
def update_resource_group (ctx : Option String) (name : String)
    (svc : Except BackendErr ResourceGroup) : Except RaisedExc ResourceGroup :=
  match svc with
  | .ok rg => .ok rg
  | .error (.nf _) =>
      .error (.azureApi "ResourceNotFoundError" 404
        s!"Resource Group \x27{name}\x27 not found" ctx)
  | .error _ =>
      .error (.azureApi "AzureConnectionError" 503
        s!"Failed to update resource group \x27{name}\x27" ctx)

/-- `delete_resource_group` (lines 154–191). -/
def delete_resource_group (ctx : Option String) (name : String)
    (svc : Except BackendErr Unit) : Except RaisedExc DeleteRGMessage :=
  match svc with
  | .ok _ =>
      .ok { message := s!"Resource group \x27{name}\x27 deletion initiated"
            note := "Deletion is asynchronous and may take several minutes to complete" }
  | .error (.nf _) =>
      .error (.azureApi "ResourceNotFoundError" 404
        s!"Resource Group \x27{name}\x27 not found" ctx)
  | .error _ =>
      .error (.azureApi "AzureConnectionError" 503
        s!"Failed to delete resource group \x27{name}\x27" ctx)

/-- All log records produced when a resource-group list request runs
through router, service and (on failure) the exception handler. -/
def list_resource_groups_request_logs (ctx : Option String)
    (svc : Except BackendErr (List ResourceGroup)) : List (LogLevel × String) :=
  [(.info, "Listing resource groups")]
    ++ service_list_resource_groups_logs svc
    ++ (match svc with
        | .ok _ => []
        | .error e => [(.error, s!"Failed to list resource groups: {e.msg}")])
    ++ (match list_resource_groups ctx svc with
        | .ok _ => []
        | .error exc => handler_logs exc)

end Az

namespace Az

/-! ## Storage-account router (api/routers/storage_accounts.py)

These routes re-raise `HTTPException` untouched, but the service layer
never raises one, so every failure enters the generic `except Exception`
branch and is classified by substring tests on `str(e).lower()`. They
raise plain `HTTPException`s (no `correlation_id` attribute). -/

/-- Body returned on a successful storage-account deletion. -/
structure DeleteSAMessage where
  message : String
  resource_group : String
  name : String
deriving DecidableEq, Repr

/-- `list_storage_accounts` (lines 23–48). -/
def list_storage_accounts (svc : Except BackendErr (List StorageAccount)) :
    Except RaisedExc StorageAccountList :=
  match svc with
  | .ok storage_accounts =>
      .ok { storage_accounts := storage_accounts, count := storage_accounts.length }
  | .error e =>
      .error (.httpExc 500 s!"Failed to list storage accounts: {e.msg}")

/-- `get_storage_account` (lines 51–84): "not found" substring → 404,
otherwise 500 embedding the exception text. -/
def get_storage_account (resource_group : String) (name : String)
    (svc : Except BackendErr StorageAccount) : Except RaisedExc StorageAccount :=
  match svc with
  | .ok sa => .ok sa
  | .error e =>
      if strIn "not found" (pyLower e.msg) then
        .error (.httpExc 404
          s!"Storage account \x27{name}\x27 not found in resource group \x27{resource_group}\x27")
      else
        .error (.httpExc 500 s!"Failed to get storage account: {e.msg}")

/-- `create_storage_account` (lines 87–131): "already exists"/"conflict"
→ 409; else "invalid"/"bad request" → 400; else 500. -/
def create_storage_account (sac : StorageAccountCreate)
    (svc : Except BackendErr StorageAccount) : Except RaisedExc StorageAccount :=
  match svc with
  | .ok sa => .ok sa
  | .error e =>
      let error_msg := pyLower e.msg
      if strIn "already exists" error_msg || strIn "conflict" error_msg then
        .error (.httpExc 409 s!"Storage account \x27{sac.name}\x27 already exists")
      else if strIn "invalid" error_msg || strIn "bad request" error_msg then
        .error (.httpExc 400 s!"Invalid storage account configuration: {e.msg}")
      else
        .error (.httpExc 500 s!"Failed to create storage account: {e.msg}")

/-- `update_storage_account` (lines 134–172). -/
def update_storage_account (resource_group : String) (name : String)
    (svc : Except BackendErr StorageAccount) : Except RaisedExc StorageAccount :=
  match svc with
  | .ok sa => .ok sa
  | .error e =>
      if strIn "not found" (pyLower e.msg) then
        .error (.httpExc 404
          s!"Storage account \x27{name}\x27 not found in resource group \x27{resource_group}\x27")
      else
        .error (.httpExc 500 s!"Failed to update storage account: {e.msg}")

/-- `delete_storage_account` (lines 175–220). -/
def delete_storage_account (resource_group : String) (name : String)
    (svc : Except BackendErr Unit) : Except RaisedExc DeleteSAMessage :=
  match svc with
  | .ok _ =>
      .ok { message := s!"Storage account \x27{name}\x27 deleted successfully"
            resource_group := resource_group
            name := name }
  | .error e =>
      if strIn "not found" (pyLower e.msg) then
        .error (.httpExc 404
          s!"Storage account \x27{name}\x27 not found in resource group \x27{resource_group}\x27")
      else
        .error (.httpExc 500 s!"Failed to delete storage account: {e.msg}")

end Az

namespace Az

/-! ## Helper lemmas -/

theorem pyOrOpt_ne_empty (a : Option String) {b : String} (hb : b ≠ "") :
    pyOrOpt a b ≠ "" := by
  cases a with
  | none => exact hb
  | some s =>
      by_cases h : s = ""
      · simp only [pyOrOpt, h, if_true]
        exact hb
      · simp only [pyOrOpt, h, if_false]
        exact h

theorem pyOrOpt_some_of_ne {s : String} (b : String) (h : s ≠ "") :
    pyOrOpt (some s) b = s := by
  simp [pyOrOpt, h]

theorem lookup_setHeader_self (hs : List (String × String)) (k v : String) :
    (setHeader hs k v).lookup k = some v := by
  induction hs with
  | nil => simp [setHeader, List.lookup]
  | cons p rest ih =>
      obtain ⟨k0, v0⟩ := p
      by_cases h : k0 = k
      · simp [setHeader, h, List.lookup]
      · have hb : (k == k0) = false := beq_eq_false_iff_ne.mpr (Ne.symm h)
        simp [setHeader, h, List.lookup, hb, ih]

theorem lookup_setHeader_ne (hs : List (String × String)) {k k2 : String}
    (v : String) (hne : k ≠ k2) : (setHeader hs k2 v).lookup k = hs.lookup k := by
  have hb2 : (k == k2) = false := beq_eq_false_iff_ne.mpr hne
  induction hs with
  | nil => simp [setHeader, List.lookup, hb2]
  | cons p rest ih =>
      obtain ⟨k0, v0⟩ := p
      by_cases h : k0 = k2
      · subst h
        simp [setHeader, List.lookup, hb2]
      · simp only [setHeader, h, if_false, List.lookup]
        cases hk : k == k0 with
        | true => rfl
        | false => exact ih

/-! ## Sample data for witnesses -/

/-- A concrete resource group. -/
def sampleRG : ResourceGroup :=
  { name := "rg1"
    location := "westus"
    tags := []
    id := "/subscriptions/s1/resourceGroups/rg1"
    type := "Microsoft.Resources/resourceGroups"
    managed_by := none }

/-- A concrete storage-account creation payload. -/
def sampleSAC : StorageAccountCreate :=
  { name := "sa1"
    resource_group := "rg1"
    location := "westus"
    kind := none
    sku_name := none
    access_tier := none
    allow_blob_public := none
    allow_shared_key := none
    tags := none }

/-! ## Claims -/

/-- C1: for every list response produced by the resource-group and
storage-account list endpoints, the `count` field equals the length of the
returned items sequence — `count` is computed as `len(items)` of the list
being returned, never set independently. -/
theorem list_count_eq_length (ctx : Option String)
    (rgSvc : Except BackendErr (List ResourceGroup))
    (saSvc : Except BackendErr (List StorageAccount))
    (l : ResourceGroupList) (m : StorageAccountList) :
    (list_resource_groups ctx rgSvc = .ok l → l.count = l.resource_groups.length) ∧
    (list_storage_accounts saSvc = .ok m → m.count = m.storage_accounts.length) := by
  constructor
  · intro h
    cases rgSvc with
    | ok rgs =>
        simp only [list_resource_groups, Except.ok.injEq] at h
        subst h
        rfl
    | error e => simp [list_resource_groups] at h
  · intro h
    cases saSvc with
    | ok sas =>
        simp only [list_storage_accounts, Except.ok.injEq] at h
        subst h
        rfl
    | error e => simp [list_storage_accounts] at h

/-- Witness for C1 at concrete one-element and empty backends. -/
theorem list_count_eq_length_witness :
    ({ resource_groups := [sampleRG], count := 1 } : ResourceGroupList).count =
        [sampleRG].length ∧
    ({ storage_accounts := [], count := 0 } : StorageAccountList).count =
        ([] : List StorageAccount).length :=
  ⟨(list_count_eq_length none (.ok [sampleRG]) (.ok [])
      { resource_groups := [sampleRG], count := 1 }
      { storage_accounts := [], count := 0 }).1 rfl,
   (list_count_eq_length none (.ok [sampleRG]) (.ok [])
      { resource_groups := [sampleRG], count := 1 }
      { storage_accounts := [], count := 0 }).2 rfl⟩

/-- C2 (counterexample): the claim says every get/update/delete naming an
entity the backend reports missing yields 404 `NotFound` for both entity
types — but a storage-account get where the backend raises its structured
not-found error with a message not containing the text "not found" is
mapped to 500 `InternalServerError`, because the storage router matches
the message text, not the exception type. -/
theorem storage_notfound_maps_to_500 :
    get_storage_account "rg1" "sa1" (.error (.nf "resource missing")) =
      .error (.httpExc 500 "Failed to get storage account: resource missing") ∧
    (500 : Nat) ≠ 404 := by
  constructor
  · rfl
  · decide

/-- C2 (amended): a backend not-found error on a resource-group
get/update/delete always yields 404 with the domain `ResourceNotFoundError`
(kind NotFound); on a storage-account get/update/delete it yields 404
only when the error's text contains "not found" case-insensitively, and a
500 carrying the exception text otherwise. -/
theorem backend_notfound_mapping (ctx : Option String) (rg name m : String) :
    (get_resource_group ctx name (.error (.nf m)) =
       .error (.azureApi "ResourceNotFoundError" 404
         s!"Resource Group \x27{name}\x27 not found" ctx)) ∧
    (update_resource_group ctx name (.error (.nf m)) =
       .error (.azureApi "ResourceNotFoundError" 404
         s!"Resource Group \x27{name}\x27 not found" ctx)) ∧
    (delete_resource_group ctx name (.error (.nf m)) =
       .error (.azureApi "ResourceNotFoundError" 404
         s!"Resource Group \x27{name}\x27 not found" ctx)) ∧
    (strIn "not found" (pyLower m) = true →
       get_storage_account rg name (.error (.nf m)) =
         .error (.httpExc 404
           s!"Storage account \x27{name}\x27 not found in resource group \x27{rg}\x27") ∧
       update_storage_account rg name (.error (.nf m)) =
         .error (.httpExc 404
           s!"Storage account \x27{name}\x27 not found in resource group \x27{rg}\x27") ∧
       delete_storage_account rg name (.error (.nf m)) =
         .error (.httpExc 404
           s!"Storage account \x27{name}\x27 not found in resource group \x27{rg}\x27")) ∧
    (strIn "not found" (pyLower m) = false →
       get_storage_account rg name (.error (.nf m)) =
         .error (.httpExc 500 s!"Failed to get storage account: {m}") ∧
       update_storage_account rg name (.error (.nf m)) =
         .error (.httpExc 500 s!"Failed to update storage account: {m}") ∧
       delete_storage_account rg name (.error (.nf m)) =
         .error (.httpExc 500 s!"Failed to delete storage account: {m}")) := by
  refine ⟨rfl, rfl, rfl, ?_, ?_⟩
  · intro h
    exact ⟨by simp [get_storage_account, BackendErr.msg, h],
           by simp [update_storage_account, BackendErr.msg, h],
           by simp [delete_storage_account, BackendErr.msg, h]⟩
  · intro h
    exact ⟨by simp [get_storage_account, BackendErr.msg, h],
           by simp [update_storage_account, BackendErr.msg, h],
           by simp [delete_storage_account, BackendErr.msg, h]⟩

/-- Witness for C2's amended theorem at concrete not-found messages on
both sides of the substring test. -/
theorem backend_notfound_mapping_witness :
    get_storage_account "rg1" "sa1" (.error (.nf "Account Not Found")) =
      .error (.httpExc 404
        "Storage account \x27sa1\x27 not found in resource group \x27rg1\x27") ∧
    get_storage_account "rg1" "sa1" (.error (.nf "gone")) =
      .error (.httpExc 500 "Failed to get storage account: gone") ∧
    get_resource_group none "rg1" (.error (.nf "whatever")) =
      .error (.azureApi "ResourceNotFoundError" 404
        "Resource Group \x27rg1\x27 not found" none) :=
  ⟨((backend_notfound_mapping none "rg1" "sa1" "Account Not Found").2.2.2.1
      (by decide)).1,
   ((backend_notfound_mapping none "rg1" "sa1" "gone").2.2.2.2 (by decide)).1,
   (backend_notfound_mapping none "x" "rg1" "whatever").1⟩

end Az

namespace Az

/-- C3 (counterexample): the claim says a failure whose message contains
"invalid" is classified ValidationFailed with HTTP 422 — but the
storage-account create endpoint maps it to HTTP 400, embedding the
exception text. -/
theorem create_invalid_maps_to_400 :
    create_storage_account sampleSAC (.error (.other "invalid")) =
      .error (.httpExc 400 "Invalid storage account configuration: invalid") ∧
    (400 : Nat) ≠ 422 := by
  constructor
  · rfl
  · decide

/-- C3 (amended): the failure-message classification exists only inside
the two create endpoints, checked in order. Storage-account create:
"already exists"/"conflict" → 409; otherwise "invalid"/"bad request" → 400
(not 422); otherwise 500 carrying the exception text (not a tagged
Unexpected envelope). Resource-group create checks only
"already exists"/"conflict" → 409 and classifies every other failure as
`AzureConnectionError` (503), not Unexpected. ("not found" is sniffed in
the storage get/update/delete endpoints, not in the creates.) -/
theorem create_error_classification (ctx : Option String)
    (rgc : ResourceGroupCreate) (sac : StorageAccountCreate) (e : BackendErr) :
    ((strIn "already exists" (pyLower e.msg) || strIn "conflict" (pyLower e.msg)) = true →
       create_storage_account sac (.error e) =
         .error (.httpExc 409 s!"Storage account \x27{sac.name}\x27 already exists") ∧
       create_resource_group ctx rgc (.error e) =
         .error (.httpExc 409 s!"Resource group \x27{rgc.name}\x27 already exists")) ∧
    ((strIn "already exists" (pyLower e.msg) || strIn "conflict" (pyLower e.msg)) = false →
       ((strIn "invalid" (pyLower e.msg) || strIn "bad request" (pyLower e.msg)) = true →
          create_storage_account sac (.error e) =
            .error (.httpExc 400 s!"Invalid storage account configuration: {e.msg}")) ∧
       ((strIn "invalid" (pyLower e.msg) || strIn "bad request" (pyLower e.msg)) = false →
          create_storage_account sac (.error e) =
            .error (.httpExc 500 s!"Failed to create storage account: {e.msg}")) ∧
       create_resource_group ctx rgc (.error e) =
         .error (.azureApi "AzureConnectionError" 503
           s!"Failed to create resource group \x27{rgc.name}\x27" ctx)) := by
  constructor
  · intro h
    exact ⟨by simp [create_storage_account, h],
           by simp [create_resource_group, h]⟩
  · intro h
    refine ⟨fun h2 => by simp [create_storage_account, h, h2],
            fun h2 => by simp [create_storage_account, h, h2],
            by simp [create_resource_group, h]⟩

/-- Witness for C3's amended theorem on the three classification branches. -/
theorem create_error_classification_witness :
    create_storage_account sampleSAC (.error (.other "Conflict with existing")) =
      .error (.httpExc 409 "Storage account \x27sa1\x27 already exists") ∧
    create_storage_account sampleSAC (.error (.other "Bad Request: sku")) =
      .error (.httpExc 400 "Invalid storage account configuration: Bad Request: sku") ∧
    create_storage_account sampleSAC (.error (.other "boom")) =
      .error (.httpExc 500 "Failed to create storage account: boom") ∧
    create_resource_group none
        { name := "rg1", location := "westus", tags := none } (.error (.other "boom")) =
      .error (.azureApi "AzureConnectionError" 503
        "Failed to create resource group \x27rg1\x27" none) :=
  ⟨((create_error_classification none
      { name := "rg1", location := "westus", tags := none } sampleSAC
      (.other "Conflict with existing")).1 (by decide)).1,
   ((create_error_classification none
      { name := "rg1", location := "westus", tags := none } sampleSAC
      (.other "Bad Request: sku")).2 (by decide)).1 (by decide),
   ((create_error_classification none
      { name := "rg1", location := "westus", tags := none } sampleSAC
      (.other "boom")).2 (by decide)).2.1 (by decide),
   ((create_error_classification none
      { name := "rg1", location := "westus", tags := none } sampleSAC
      (.other "boom")).2 (by decide)).2.2⟩

end Az

namespace Az

/-- C4: every error envelope has a non-empty `correlation_id`; it equals
the inbound `X-Correlation-ID` header value when a non-empty one was
supplied (the middleware stores the header in the request context, and a
domain exception's own `correlation_id`, when set, was read from that
same context), and it is the sentinel "unknown" when no correlation
context is active and the exception carries none. -/
theorem error_envelope_correlation (ctx excCid : Option String)
    (cn det : String) (stat ts : Nat) (errors : List ValErr) (h u : String) :
    ((azure_exception_handler ctx cn stat det excCid ts).2.correlation_id ≠ "") ∧
    ((http_exception_handler ctx stat det ts).2.correlation_id ≠ "") ∧
    ((validation_exception_handler ctx errors ts).2.correlation_id ≠ "") ∧
    ((general_exception_handler ctx det ts).2.correlation_id ≠ "") ∧
    (h ≠ "" → corrOf (some h) u = h) ∧
    (h ≠ "" → (excCid = none ∨ excCid = some h) →
       (azure_exception_handler (some h) cn stat det excCid ts).2.correlation_id = h) ∧
    (h ≠ "" → (http_exception_handler (some h) stat det ts).2.correlation_id = h) ∧
    ((azure_exception_handler none cn stat det none ts).2.correlation_id = "unknown") ∧
    ((http_exception_handler none stat det ts).2.correlation_id = "unknown") := by
  have hu : ("unknown" : String) ≠ "" := by decide
  refine ⟨?_, ?_, ?_, ?_, ?_, ?_, ?_, rfl, rfl⟩
  · exact pyOrOpt_ne_empty _ (pyOrOpt_ne_empty _ hu)
  · exact pyOrOpt_ne_empty _ hu
  · exact pyOrOpt_ne_empty _ hu
  · exact pyOrOpt_ne_empty _ hu
  · intro hh
    exact pyOrOpt_some_of_ne _ hh
  · rintro hh (rfl | rfl)
    · simp [azure_exception_handler, pyOrOpt, hh]
    · simp [azure_exception_handler, pyOrOpt, hh]
  · intro hh
    simp [http_exception_handler, pyOrOpt, hh]

/-- Witness for C4 at a concrete supplied header value "abc". -/
theorem error_envelope_correlation_witness :
    (azure_exception_handler (some "abc") "ResourceNotFoundError" 404 "d"
        (some "abc") 0).2.correlation_id = "abc" ∧
    (http_exception_handler (some "abc") 404 "d" 0).2.correlation_id = "abc" ∧
    corrOf (some "abc") "8f14e45f-aaaa" = "abc" ∧
    (azure_exception_handler (some "abc") "ResourceNotFoundError" 404 "d"
        (some "abc") 0).2.correlation_id ≠ "" :=
  ⟨(error_envelope_correlation (some "abc") (some "abc") "ResourceNotFoundError"
      "d" 404 0 [] "abc" "8f14e45f-aaaa").2.2.2.2.2.1 (by decide) (Or.inr rfl),
   (error_envelope_correlation (some "abc") (some "abc") "ResourceNotFoundError"
      "d" 404 0 [] "abc" "8f14e45f-aaaa").2.2.2.2.2.2.1 (by decide),
   (error_envelope_correlation (some "abc") (some "abc") "ResourceNotFoundError"
      "d" 404 0 [] "abc" "8f14e45f-aaaa").2.2.2.2.1 (by decide),
   (error_envelope_correlation (some "abc") (some "abc") "ResourceNotFoundError"
      "d" 404 0 [] "abc" "8f14e45f-aaaa").1⟩

/-- The `ErrorDetail` list the validation handler builds from the
validator's entries. -/
def validationDetails (errors : List ValErr) : List ErrorDetail :=
  errors.map fun e =>
    { field := some (String.intercalate "." e.loc)
      message := e.msg
      code := some e.ty }

/-- C5 (counterexample): the claim says the serialized body omits the
`details` key entirely when there are no field errors — but pydantic's
`model_dump` emits every declared field, so the body of a 404 envelope
contains the key `details` with value null. -/
theorem details_key_is_null_not_omitted :
    (errorResponseDump
        (azure_exception_handler none "ResourceNotFoundError" 404
          "Resource Group \x27rg1\x27 not found" none 0).2).lookup "details" =
      some Json.null := rfl

/-- C5 (amended): the serialized error body always contains the `details`
key — with value null (not an omitted key and not an empty list) when the
envelope has no field errors, and, for validation envelopes, with one
entry per validator-reported error, hence non-empty whenever the
validator reported at least one. -/
theorem details_serialization (ctx : Option String) (r : ErrorResponse)
    (ds : List ErrorDetail) (es : List ValErr) (ts : Nat) :
    (r.details = none → (errorResponseDump r).lookup "details" = some Json.null) ∧
    (r.details = some ds →
       (errorResponseDump r).lookup "details" =
         some (Json.arr (ds.map errorDetailDump))) ∧
    ((validation_exception_handler ctx es ts).2.details =
       some (validationDetails es)) ∧
    (es ≠ [] → validationDetails es ≠ []) := by
  refine ⟨?_, ?_, rfl, ?_⟩
  · intro hd
    simp [errorResponseDump, hd, List.lookup]
  · intro hd
    simp [errorResponseDump, hd, List.lookup]
  · intro hne
    simpa [validationDetails] using hne

/-- Witness for C5's amended theorem at a concrete envelope and a
single-entry validator report. -/
theorem details_serialization_witness :
    (errorResponseDump
        { error := "HTTPException", message := "d", details := none,
          correlation_id := "abc", timestamp := 0 }).lookup "details" =
      some Json.null ∧
    (validation_exception_handler none
        [{ loc := ["body", "location"], msg := "Field required",
           ty := "missing" }] 0).2.details =
      some (validationDetails
        [{ loc := ["body", "location"], msg := "Field required",
           ty := "missing" }]) ∧
    validationDetails
        [{ loc := ["body", "location"], msg := "Field required",
           ty := "missing" }] ≠ [] :=
  ⟨(details_serialization none
      { error := "HTTPException", message := "d", details := none,
        correlation_id := "abc", timestamp := 0 } [] [] 0).1 rfl,
   (details_serialization none
      { error := "HTTPException", message := "d", details := none,
        correlation_id := "abc", timestamp := 0 } []
      [{ loc := ["body", "location"], msg := "Field required",
         ty := "missing" }] 0).2.2.1,
   (details_serialization none
      { error := "HTTPException", message := "d", details := none,
        correlation_id := "abc", timestamp := 0 } []
      [{ loc := ["body", "location"], msg := "Field required",
         ty := "missing" }] 0).2.2.2 (by simp)⟩

end Az

namespace Az

/-- C6 (counterexample): the claim says every response carries
`X-Correlation-ID` — but when the inner application raises an exception
the correlation middleware re-raises without building a response, and the
500 response produced by the catch-all handler outside it carries neither
`X-Correlation-ID` nor `X-Process-Time`. -/
theorem unhandled_500_lacks_correlation_header :
    (app_send (some "abc") "8f14e45f-aaaa" "0.1" (some "abc") 0
        (.error "boom")).headers.lookup "X-Correlation-ID" = none ∧
    (app_send (some "abc") "8f14e45f-aaaa" "0.1" (some "abc") 0
        (.error "boom")).status = 500 :=
  ⟨rfl, rfl⟩

/-- C6 (amended): every response the inner application returns normally —
success responses and all error responses built by the inner exception
handlers — carries both `X-Correlation-ID` (the request's correlation id)
and `X-Process-Time` (the stringified elapsed time); only a response
produced by the catch-all `Exception` handler, which runs outside the
middleware, carries neither. -/
theorem middleware_response_headers (hc : Option String) (u pt : String)
    (ctx : Option String) (ts : Nat) (r : Response) (m : String) :
    ((app_send hc u pt ctx ts (.ok r)).headers.lookup "X-Correlation-ID" =
       some (corrOf hc u)) ∧
    ((app_send hc u pt ctx ts (.ok r)).headers.lookup "X-Process-Time" =
       some pt) ∧
    ((app_send hc u pt ctx ts (.ok r)).status = r.status) ∧
    ((app_send hc u pt ctx ts (.error m)).headers = []) ∧
    ((app_send hc u pt ctx ts (.error m)).status = 500) := by
  refine ⟨?_, ?_, rfl, rfl, rfl⟩
  · show (setHeader (setHeader r.headers "X-Correlation-ID" (corrOf hc u))
        "X-Process-Time" pt).lookup "X-Correlation-ID" = some (corrOf hc u)
    rw [lookup_setHeader_ne _ _ (by decide)]
    exact lookup_setHeader_self _ _ _
  · exact lookup_setHeader_self _ _ _

/-- C7 (counterexample): the claim says Unexpected (500) messages are a
fixed generic string independent of the internal exception — but the
storage-account list endpoint embeds `str(e)` in its 500 detail, so two
different internal failures produce two different messages. -/
theorem unexpected_message_embeds_exception_text :
    list_storage_accounts (.error (.other "boom1")) =
      .error (.httpExc 500 "Failed to list storage accounts: boom1") ∧
    list_storage_accounts (.error (.other "boom2")) =
      .error (.httpExc 500 "Failed to list storage accounts: boom2") ∧
    ("Failed to list storage accounts: boom1" : String) ≠
      "Failed to list storage accounts: boom2" := by
  refine ⟨rfl, rfl, by decide⟩

/-- C7 (amended): the catch-all handler's Unexpected (500) envelope and
the resource-group endpoints' BackendUnavailable (503) responses use
fixed messages independent of the internal exception; the storage-account
endpoints' 500 responses, however, embed the exception text. -/
theorem generic_error_messages_fixed (ctx : Option String) (m1 m2 : String)
    (ts1 ts2 : Nat) (e1 e2 : BackendErr) :
    ((general_exception_handler ctx m1 ts1).2.message =
       "An unexpected error occurred") ∧
    ((general_exception_handler ctx m1 ts1).2.message =
       (general_exception_handler ctx m2 ts2).2.message) ∧
    (list_resource_groups ctx (.error e1) = list_resource_groups ctx (.error e2)) ∧
    (list_storage_accounts (.error e1) =
       .error (.httpExc 500 s!"Failed to list storage accounts: {e1.msg}")) :=
  ⟨rfl, rfl, rfl, rfl⟩

/-- C8 (counterexample): the claim says every failed request is logged
exactly once — but a failing resource-group list request is logged three
times (service error, router error, handler warning), and the handler
logs the 503 at warning level, not error. -/
theorem failed_list_triple_logged :
    list_resource_groups_request_logs (some "abc") (.error (.other "boom")) =
      [(.info, "Listing resource groups"),
       (.info, "Listing resource groups"),
       (.error, "Failed to list resource groups: boom"),
       (.error, "Failed to list resource groups: boom"),
       (.warning,
        "Azure API exception: Failed to retrieve resource groups from Azure")] ∧
    (list_resource_groups_request_logs (some "abc")
        (.error (.other "boom"))).countP
      (fun p => match p.1 with | .info => false | _ => true) = 3 ∧
    (3 : Nat) ≠ 1 := by
  refine ⟨rfl, rfl, by decide⟩

/-- C8 (amended): a failing resource-group list request is logged at
every layer that observes the failure — once at error level in the
service, once at error level in the router, and once at warning level in
the `AzureAPIException` handler (warning even though the mapped status is
503); a successful request produces only info records. -/
theorem failed_list_logging (ctx : Option String) (e : BackendErr)
    (rgs : List ResourceGroup) :
    (list_resource_groups_request_logs ctx (.error e) =
       [(.info, "Listing resource groups"),
        (.info, "Listing resource groups"),
        (.error, s!"Failed to list resource groups: {e.msg}"),
        (.error, s!"Failed to list resource groups: {e.msg}"),
        (.warning,
         "Azure API exception: Failed to retrieve resource groups from Azure")]) ∧
    (list_resource_groups_request_logs ctx (.ok rgs) =
       [(.info, "Listing resource groups"),
        (.info, "Listing resource groups"),
        (.info, s!"Found {rgs.length} resource groups")]) :=
  ⟨rfl, rfl⟩

/-- C9: the patch a resource-group update sends to the backend contains
only the `tags` key — name and location are never part of it, so applying
it leaves them unchanged — and its tags mapping is `update.tags or {}`:
the empty mapping when the request omitted tags, replacing (not merging
with) whatever tags the remote entity had. -/
theorem update_patch_only_tags (u : ResourceGroupUpdate) (old : ResourceGroup) :
    ((update_resource_group_parameters u).map Prod.fst = ["tags"]) ∧
    ((update_resource_group_parameters u).lookup "tags" =
       some (.dict (pyOrDict u.tags []))) ∧
    (u.tags = none →
       (update_resource_group_parameters u).lookup "tags" = some (.dict [])) ∧
    ((applyPatch old (update_resource_group_parameters u)).name = old.name) ∧
    ((applyPatch old (update_resource_group_parameters u)).location =
       old.location) ∧
    ((applyPatch old (update_resource_group_parameters u)).tags =
       pyOrDict u.tags []) := by
  refine ⟨rfl, ?_, ?_, rfl, rfl, ?_⟩
  · simp [update_resource_group_parameters, List.lookup]
  · intro hn
    simp [update_resource_group_parameters, hn, pyOrDict, List.lookup]
  · simp [applyPatch, update_resource_group_parameters, List.lookup]

/-- Witness for C9 at a tags-less update applied to a concrete group that
has existing tags. -/
theorem update_patch_only_tags_witness :
    (update_resource_group_parameters { tags := none }).lookup "tags" =
      some (.dict []) ∧
    (applyPatch { sampleRG with tags := [("env", "prod")] }
        (update_resource_group_parameters { tags := none })).tags =
      pyOrDict none [] ∧
    (applyPatch { sampleRG with tags := [("env", "prod")] }
        (update_resource_group_parameters { tags := none })).name =
      ({ sampleRG with tags := [("env", "prod")] } : ResourceGroup).name :=
  ⟨(update_patch_only_tags { tags := none }
      { sampleRG with tags := [("env", "prod")] }).2.2.1 rfl,
   (update_patch_only_tags { tags := none }
      { sampleRG with tags := [("env", "prod")] }).2.2.2.2.2,
   (update_patch_only_tags { tags := none }
      { sampleRG with tags := [("env", "prod")] }).2.2.2.1⟩

/-- C10: an inbound request whose `X-Correlation-ID` header is absent or
empty gets a freshly generated correlation id: the first 8 characters of
a newly drawn UUID4 string (an empty header is falsy in Python's `or`,
hence treated as absent). -/
theorem fresh_correlation_when_header_absent (hc : Option String) (u : String) :
    (hc = none ∨ hc = some "") →
      corrOf hc u = generate_correlation_id u ∧
      generate_correlation_id u = u.take 8 := by
  rintro (rfl | rfl)
  · exact ⟨rfl, rfl⟩
  · constructor
    · simp [corrOf, pyOrOpt]
    · rfl

/-- Witness for C10 with a concrete UUID4 string, for both the absent and
the empty header. -/
theorem fresh_correlation_when_header_absent_witness :
    (corrOf none "8f14e45f-ceea-467f-a34e-85a125cb0bd8" =
       generate_correlation_id "8f14e45f-ceea-467f-a34e-85a125cb0bd8" ∧
     generate_correlation_id "8f14e45f-ceea-467f-a34e-85a125cb0bd8" =
       "8f14e45f-ceea-467f-a34e-85a125cb0bd8".take 8) ∧
    (corrOf (some "") "8f14e45f-ceea-467f-a34e-85a125cb0bd8" =
       generate_correlation_id "8f14e45f-ceea-467f-a34e-85a125cb0bd8" ∧
     generate_correlation_id "8f14e45f-ceea-467f-a34e-85a125cb0bd8" =
       "8f14e45f-ceea-467f-a34e-85a125cb0bd8".take 8) :=
  ⟨fresh_correlation_when_header_absent none
      "8f14e45f-ceea-467f-a34e-85a125cb0bd8" (Or.inl rfl),
   fresh_correlation_when_header_absent (some "")
      "8f14e45f-ceea-467f-a34e-85a125cb0bd8" (Or.inr rfl)⟩

end Az
